import Mathlib

/-!
Verification of the video-segment concatenation stage (`src/ffmpeg/concat.rs`).

The Rust code mixes pure string construction with filesystem and process
effects.  We embed it shallowly: pure functions become Lean functions on
`String`; every effectful operation is resolved through an explicit
environment `Env` that fixes the outcome of each filesystem / process
operation, and every function additionally returns the ordered list of
effects it performed (its trace).  A panic (Rust `assert!`) is a
distinguished outcome.
-/

set_option maxHeartbeats 1000000

namespace Concat

/-- Single-quote character, used in the ffmpeg file-list syntax. -/
def squote : String := String.singleton (Char.ofNat 39)

/-- Escape one character the way Rust `Debug` formatting of `str` /
`Path` does for the characters that can occur here.  (Rust `escape_debug`
additionally hex-escapes other control characters; no input in this
development contains any.) -/
def rustDebugEscapeChar (c : Char) : String :=
  if c = Char.ofNat 34 then "\\\""
  else if c = Char.ofNat 92 then "\\\\"
  else if c = Char.ofNat 10 then "\\n"
  else if c = Char.ofNat 13 then "\\r"
  else if c = Char.ofNat 9 then "\\t"
  else if c = Char.ofNat 0 then "\\0"
  else String.singleton c

/-- Rust `format!("{:?}", s)` for a string or path `s`: the text quoted and
escaped. -/
def rustDebugStr (s : String) : String :=
  "\"" ++ String.join (s.data.map rustDebugEscapeChar) ++ "\""

/-- `str::strip_prefix`: `some` of the remainder when `pre` is a prefix.
Stated on the character lists underlying the strings. -/
def stripPrefixOpt (s pre : String) : Option String :=
  if pre.data.isPrefixOf s.data then some (String.mk (s.data.drop pre.data.length))
  else none

/-- The Windows extended-length path marker `\\?\` (Rust `UNC_PREFIX`). -/
def uncMarker : String := "\\\\?\\"

/-- `fix_path`, `#[cfg(windows)]` variant (concat.rs lines 24-38): strip the
extended-length marker; if the remainder starts with `UNC`, replace that by a
single backslash. -/
def fix_path_windows (p : String) : String :=
  match stripPrefixOpt p uncMarker with
  | some path =>
    match stripPrefixOpt path "UNC" with
    | some p2 => "\\" ++ p2
    | none => path
  | none => p

/-- `fix_path`, `#[cfg(not(windows))]` variant (concat.rs lines 40-43): the
plain display form of the path, i.e. the identity on our string model. -/
def fix_path (p : String) : String := p

/-- `mkvmerge_options_json` (concat.rs lines 94-107), built exactly as the
source does: output element, optional audio element, group-open token, one
entry per chunk index in `0..num`, group-close token.  `{output:?}` and
`{audio:?}` are Rust `Debug` formatting; the chunk entries use plain
`Display` formatting. -/
def mkvmerge_options_json (num : Nat) (ext : String) (output : String)
    (audio : Option String) : String :=
  let s := "[\"-o\", " ++ rustDebugStr output
  let s := match audio with
    | some a => s ++ ", " ++ rustDebugStr a
    | none => s
  let s := s ++ ", \"[\""
  let s := (List.range num).foldl
    (fun acc i => acc ++ ", \"encoded_chunk_" ++ toString i ++ "." ++ ext ++ "\"") s
  s ++ ",\"]\"]"

/-- Captured output of a finished child process (`std::process::Output`):
exit-status success flag plus captured streams (stderr already decoded, as by
`String::from_utf8_lossy`). -/
structure ProcOutput where
  success : Bool
  stdout : String
  stderr : String
deriving Repr, DecidableEq

/-- One observable side effect of the code, in the order performed. -/
inductive Effect where
  | queryExists (path : String)
  | fsWrite (path : String) (content : String)
  | spawnOutput (prog : String) (cwd : Option String) (args : List String)
  | spawnStatus (prog : String) (args : List String)
  | fsRemove (path : String)
deriving Repr, DecidableEq

/-- Environment fixing the outcome of every effectful operation: path
existence, `PathAbs::new` resolution, the two kinds of file writes, the two
kinds of process launches (`Command::output` and `Command::status`), and
`fs::remove_file`.  Error payloads are the error message strings. -/
structure Env where
  fileExists : String → Bool
  pathAbs : String → Except String String
  createWrite : String → String → Except String Unit
  fsWriteRes : String → String → Except String Unit
  runOutput : String → Option String → List String → Except String ProcOutput
  runStatus : String → List String → Except String Int
  removeFile : String → Except String Unit

/-- `OutputError` (concat.rs lines 10-16).  `IoErr` is the source's `Io`
variant, carrying the I/O error message. -/
inductive OutputError where
  | Path (msg : String)
  | Fs (msg : String)
  | MkvMergeFailed (msg : String)
  | IoErr (msg : String)
deriving Repr, DecidableEq

/-- `VideoEncodeError` comes from `crate::error`, which is not among the
provided sources.  Modelled from the spec: `Concatenation` is the umbrella
concatenation failure named by the spec and constructed explicitly in
concat.rs; `IoWrapped` models the `From` conversion of a `std::io::Error`
performed by the `?` operator in `concatenate_videos_and_copy_streams`
(lines 175 and 200). -/
inductive VideoEncodeError where
  | Concatenation (msg : String)
  | IoWrapped (msg : String)
deriving Repr, DecidableEq

/-- Result of running a piece of code that can also panic. -/
inductive Outcome (ε : Type) (α : Type) where
  | panic
  | ok (a : α)
  | err (e : ε)
deriving Repr, DecidableEq

/-- `mkvmerge` (concat.rs lines 18-92), with effects resolved through `env`.
Source order is preserved: resolve and probe `temp_dir/audio.mkv`, resolve
the output path, `assert!(num_tasks != 0)`, build and write
`temp_dir/options.json`, run `mkvmerge` in `temp_dir/encoded` and map a
non-zero exit status to `MkvMergeFailed` carrying the captured stderr. -/
def mkvmerge (env : Env) (temp_dir : String) (output : String)
    (encoder_extension : String) (num_tasks : Nat) :
    Outcome OutputError Unit × List Effect :=
  match env.pathAbs (temp_dir ++ "/audio.mkv") with
  | Except.error e => (Outcome.err (OutputError.Path e), [])
  | Except.ok audioAbs =>
    match env.pathAbs output with
    | Except.error e => (Outcome.err (OutputError.Path e), [Effect.queryExists audioAbs])
    | Except.ok outAbs =>
      if num_tasks = 0 then (Outcome.panic, [Effect.queryExists audioAbs])
      else
        match env.createWrite (temp_dir ++ "/options.json")
            (mkvmerge_options_json num_tasks encoder_extension (fix_path outAbs)
              (if env.fileExists audioAbs then some (fix_path audioAbs) else none)) with
        | Except.error e =>
          (Outcome.err (OutputError.Fs e),
            [Effect.queryExists audioAbs,
             Effect.fsWrite (temp_dir ++ "/options.json")
               (mkvmerge_options_json num_tasks encoder_extension (fix_path outAbs)
                 (if env.fileExists audioAbs then some (fix_path audioAbs) else none))])
        | Except.ok _ =>
          match env.runOutput "mkvmerge" (some (temp_dir ++ "/encoded"))
              ["@../options.json"] with
          | Except.error e =>
            (Outcome.err (OutputError.IoErr e),
              [Effect.queryExists audioAbs,
               Effect.fsWrite (temp_dir ++ "/options.json")
                 (mkvmerge_options_json num_tasks encoder_extension (fix_path outAbs)
                   (if env.fileExists audioAbs then some (fix_path audioAbs) else none)),
               Effect.spawnOutput "mkvmerge" (some (temp_dir ++ "/encoded"))
                 ["@../options.json"]])
          | Except.ok out =>
            if out.success then
              (Outcome.ok (),
                [Effect.queryExists audioAbs,
                 Effect.fsWrite (temp_dir ++ "/options.json")
                   (mkvmerge_options_json num_tasks encoder_extension (fix_path outAbs)
                     (if env.fileExists audioAbs then some (fix_path audioAbs) else none)),
                 Effect.spawnOutput "mkvmerge" (some (temp_dir ++ "/encoded"))
                   ["@../options.json"]])
            else
              (Outcome.err (OutputError.MkvMergeFailed out.stderr),
                [Effect.queryExists audioAbs,
                 Effect.fsWrite (temp_dir ++ "/options.json")
                   (mkvmerge_options_json num_tasks encoder_extension (fix_path outAbs)
                     (if env.fileExists audioAbs then some (fix_path audioAbs) else none)),
                 Effect.spawnOutput "mkvmerge" (some (temp_dir ++ "/encoded"))
                   ["@../options.json"]])

/-- Argument list of the ffmpeg invocation (concat.rs lines 110-133),
including the leading banner-suppression flag. -/
def ffmpegArgs (concat : String) (input : String) (output : String) : List String :=
  ["-hide_banner", "-f", "concat", "-safe", "0", "-i", concat, "-i", input,
   "-map", "0:v", "-map", "1", "-c", "copy", output]

/-- `ffmpeg_mux` (concat.rs lines 109-136): launch ffmpeg via
`Command::status`; only a launch-level error is surfaced, the exit status
itself is dropped. -/
def ffmpeg_mux (env : Env) (concat : String) (input : String) (output : String) :
    Outcome OutputError Unit × List Effect :=
  match env.runStatus "ffmpeg" (ffmpegArgs concat input output) with
  | Except.error e =>
    (Outcome.err (OutputError.IoErr e), [Effect.spawnStatus "ffmpeg" (ffmpegArgs concat input output)])
  | Except.ok _ =>
    (Outcome.ok (), [Effect.spawnStatus "ffmpeg" (ffmpegArgs concat input output)])

/-- The existence loop of `concatenate_videos_and_copy_streams` (lines
157-164): probe each segment in order, stopping at the first missing one.
Returns the first missing path (if any) and the trace of probes. -/
def checkSegments (env : Env) : List String → Option String × List Effect
  | [] => (none, [])
  | p :: ps =>
    if env.fileExists p then
      let r := checkSegments env ps
      (r.1, Effect.queryExists p :: r.2)
    else (some p, [Effect.queryExists p])

/-- Content of the ffmpeg file list (lines 171-174): one
`file '<path>'` line per segment, in segment order. -/
def fileListContent (segment_paths : List String) : String :=
  String.join (segment_paths.map (fun p => "file " ++ squote ++ p ++ squote ++ "\n"))

/-- Result of the backend branch of the orchestrator: either the `?` early
return caused by a failed `std::fs::write` of the file list (line 175), or
the `status` value produced by the selected backend. -/
inductive BranchRes where
  | early (e : VideoEncodeError)
  | status (s : Outcome OutputError Unit)
deriving Repr, DecidableEq

/-- The backend selection and execution of
`concatenate_videos_and_copy_streams` (lines 166-184): `"ffmpeg"` writes the
file list and runs `ffmpeg_mux`; every other selector value runs `mkvmerge`
with extension `"mkv"`. -/
def backendRun (env : Env) (segment_paths : List String) (original_input : String)
    (output_file : String) (temp_dir : String) (expected_segments : Nat)
    (concat : String) : BranchRes × List Effect :=
  if concat = "ffmpeg" then
    match env.fsWriteRes "file_list.txt" (fileListContent segment_paths) with
    | Except.error e =>
      (BranchRes.early (VideoEncodeError.IoWrapped e),
        [Effect.fsWrite "file_list.txt" (fileListContent segment_paths)])
    | Except.ok _ =>
      (BranchRes.status (ffmpeg_mux env "file_list.txt" original_input output_file).1,
        Effect.fsWrite "file_list.txt" (fileListContent segment_paths)
          :: (ffmpeg_mux env "file_list.txt" original_input output_file).2)
  else
    (BranchRes.status (mkvmerge env temp_dir output_file "mkv" expected_segments).1,
      (mkvmerge env temp_dir output_file "mkv" expected_segments).2)

/-- `concatenate_videos_and_copy_streams` (concat.rs lines 140-203): count
validation, existence validation, backend dispatch, umbrella error wrapping
of a backend failure, and `fs::remove_file("file_list.txt")?` on the success
path (whichever backend ran). -/
def concatenate_videos_and_copy_streams (env : Env) (segment_paths : List String)
    (original_input : String) (output_file : String) (temp_dir : String)
    (expected_segments : Nat) (concat : String) :
    Outcome VideoEncodeError Unit × List Effect :=
  if segment_paths.length ≠ expected_segments then
    (Outcome.err (VideoEncodeError.Concatenation
      ("Mismatch in segment count. Expected: " ++ toString expected_segments
        ++ ", Found: " ++ toString segment_paths.length)), [])
  else
    match checkSegments env segment_paths with
    | (some p, qs) =>
      (Outcome.err (VideoEncodeError.Concatenation
        ("Segment file not found: " ++ rustDebugStr p)), qs)
    | (none, qs) =>
      match backendRun env segment_paths original_input output_file temp_dir
          expected_segments concat with
      | (BranchRes.early e, tr) => (Outcome.err e, qs ++ tr)
      | (BranchRes.status Outcome.panic, tr) => (Outcome.panic, qs ++ tr)
      | (BranchRes.status (Outcome.err _), tr) =>
        (Outcome.err (VideoEncodeError.Concatenation
          "Failed to concatenate videos and copy streams"), qs ++ tr)
      | (BranchRes.status (Outcome.ok _), tr) =>
        match env.removeFile "file_list.txt" with
        | Except.error e =>
          (Outcome.err (VideoEncodeError.IoWrapped e),
            qs ++ tr ++ [Effect.fsRemove "file_list.txt"])
        | Except.ok _ =>
          (Outcome.ok (), qs ++ tr ++ [Effect.fsRemove "file_list.txt"])

/-- The programs of the process-spawn effects of a trace, in order. -/
def spawnedPrograms (tr : List Effect) : List String :=
  tr.filterMap fun e =>
    match e with
    | Effect.spawnOutput prog _ _ => some prog
    | Effect.spawnStatus prog _ => some prog
    | _ => none

/-- An environment in which every operation succeeds, every path exists, and
the spawned processes exit successfully. -/
def envAllOk : Env where
  fileExists := fun _ => true
  pathAbs := fun p => Except.ok p
  createWrite := fun _ _ => Except.ok ()
  fsWriteRes := fun _ _ => Except.ok ()
  runOutput := fun _ _ _ => Except.ok ⟨true, "", ""⟩
  runStatus := fun _ _ => Except.ok 0
  removeFile := fun _ => Except.ok ()

/-- Like `envAllOk`, except that the spawned `mkvmerge` process exits with a
non-zero status and stderr text `bad input`. -/
def envMkvFail : Env where
  fileExists := fun _ => true
  pathAbs := fun p => Except.ok p
  createWrite := fun _ _ => Except.ok ()
  fsWriteRes := fun _ _ => Except.ok ()
  runOutput := fun _ _ _ => Except.ok ⟨false, "", "bad input"⟩
  runStatus := fun _ _ => Except.ok 0
  removeFile := fun _ => Except.ok ()

/-- Like `envAllOk`, except that the path `s1.mkv` does not exist. -/
def envOneMissing : Env :=
  { envAllOk with fileExists := fun p => p != "s1.mkv" }

/-- The chunk entry the options builder emits for index `i`: the literal text
`, "encoded_chunk_<i>.<ext>"`. -/
def chunkEntry (ext : String) (i : Nat) : String :=
  ", \"encoded_chunk_" ++ toString i ++ "." ++ ext ++ "\""

/-- The chunk entries for indices `0..n`, concatenated in index order. -/
def chunkEntriesStr (n : Nat) (ext : String) : String :=
  String.join ((List.range n).map (chunkEntry ext))

/-- The output element opening the options text: `["-o", "<output>"`. -/
def optionsOutputElem (output : String) : String :=
  "[\"-o\", " ++ rustDebugStr output

/-- The head of the options text: output element, then the audio element
when an audio path is present. -/
def optionsHead (output : String) (audio : Option String) : String :=
  match audio with
  | some a => optionsOutputElem output ++ ", " ++ rustDebugStr a
  | none => optionsOutputElem output

/-- The tail of the options text: group-open token, chunk entries,
group-close token. -/
def optionsTail (n : Nat) (ext : String) : String :=
  ", \"[\"" ++ chunkEntriesStr n ext ++ ",\"]\"]"

lemma join_cons (a : String) (l : List String) :
    String.join (a :: l) = a ++ String.join l := by
  apply String.ext
  simp [String.join_eq]

lemma join_append (l₁ l₂ : List String) :
    String.join (l₁ ++ l₂) = String.join l₁ ++ String.join l₂ := by
  apply String.ext
  simp [String.join_eq]

lemma chunkEntriesStr_succ (n : Nat) (ext : String) :
    chunkEntriesStr (n + 1) ext = chunkEntriesStr n ext ++ chunkEntry ext n := by
  simp only [chunkEntriesStr, List.range_succ, List.map_append, List.map_cons,
    List.map_nil, join_append]
  simp [String.join, join_cons]

lemma range_foldl_chunks (ext : String) (n : Nat) (s : String) :
    (List.range n).foldl
      (fun acc i => acc ++ ", \"encoded_chunk_" ++ toString i ++ "." ++ ext ++ "\"") s
      = s ++ chunkEntriesStr n ext := by
  induction n generalizing s with
  | zero => simp [chunkEntriesStr, String.join]
  | succ k ih =>
    rw [List.range_succ, List.foldl_append, ih, chunkEntriesStr_succ]
    apply String.ext
    simp [chunkEntry, List.foldl]

/-- Structure of the options text: head (output and optional audio element)
followed by the chunk-entry tail. -/
lemma mkvmerge_options_json_structure (n : Nat) (ext output : String)
    (audio : Option String) :
    mkvmerge_options_json n ext output audio
      = optionsHead output audio ++ optionsTail n ext := by
  cases audio with
  | none =>
    unfold mkvmerge_options_json optionsHead optionsOutputElem optionsTail
    dsimp only
    rw [range_foldl_chunks]
    apply String.ext
    simp
  | some a =>
    unfold mkvmerge_options_json optionsHead optionsOutputElem optionsTail
    dsimp only
    rw [range_foldl_chunks]
    apply String.ext
    simp

lemma checkSegments_all_exist (env : Env) (l : List String)
    (h : ∀ p ∈ l, env.fileExists p = true) :
    checkSegments env l = (none, l.map Effect.queryExists) := by
  induction l with
  | nil => rfl
  | cons a t ih =>
    have ha : env.fileExists a = true := h a (by simp)
    simp [checkSegments, ha, ih (fun p hp => h p (by simp [hp]))]

lemma checkSegments_first_missing (env : Env) (l : List String) (m : String)
    (h : l.find? (fun p => !env.fileExists p) = some m) :
    (checkSegments env l).1 = some m ∧
      ∀ e ∈ (checkSegments env l).2, ∃ q, e = Effect.queryExists q := by
  induction l with
  | nil => simp [List.find?] at h
  | cons a t ih =>
    by_cases ha : env.fileExists a = true
    · rw [List.find?_cons_of_neg] at h
      · have := ih h
        refine ⟨?_, ?_⟩
        · simpa [checkSegments, ha] using this.1
        · intro e he
          simp only [checkSegments, ha, if_true, List.mem_cons] at he
          rcases he with he | he
          · exact ⟨a, he⟩
          · exact this.2 e he
      · simp [ha]
    · have ha2 : env.fileExists a = false := by
        cases hb : env.fileExists a
        · rfl
        · exact absurd hb ha
      rw [List.find?_cons_of_pos] at h
      · refine ⟨?_, ?_⟩
        · simpa [checkSegments, ha2] using h
        · intro e he
          simp only [checkSegments, ha2, Bool.false_eq_true, if_false,
            List.mem_singleton] at he
          exact ⟨a, he⟩
      · simp [ha2]

lemma ffmpeg_mux_trace (env : Env) (c i o : String) :
    (ffmpeg_mux env c i o).2 = [Effect.spawnStatus "ffmpeg" (ffmpegArgs c i o)] := by
  unfold ffmpeg_mux
  cases env.runStatus "ffmpeg" (ffmpegArgs c i o) <;> rfl

lemma mkvmerge_trace_no_remove (env : Env) (temp out ext : String) (n : Nat)
    (q : String) : Effect.fsRemove q ∉ (mkvmerge env temp out ext n).2 := by
  unfold mkvmerge
  cases env.pathAbs (temp ++ "/audio.mkv") with
  | error e => simp
  | ok aa =>
    dsimp only
    cases env.pathAbs out with
    | error e => simp
    | ok ob =>
      dsimp only
      by_cases hn : n = 0
      · simp [hn]
      · rw [if_neg hn]
        cases env.createWrite (temp ++ "/options.json")
            (mkvmerge_options_json n ext (fix_path ob)
              (if env.fileExists aa then some (fix_path aa) else none)) with
        | error e => simp
        | ok u =>
          dsimp only
          cases env.runOutput "mkvmerge" (some (temp ++ "/encoded"))
              ["@../options.json"] with
          | error e => simp
          | ok o2 =>
            by_cases hs : o2.success <;> simp [hs]

lemma backendRun_no_remove (env : Env) (segs : List String)
    (orig out temp : String) (exp : Nat) (sel : String) (q : String) :
    Effect.fsRemove q ∉ (backendRun env segs orig out temp exp sel).2 := by
  unfold backendRun
  by_cases hsel : sel = "ffmpeg"
  · rw [if_pos hsel]
    cases env.fsWriteRes "file_list.txt" (fileListContent segs) with
    | error e => simp
    | ok u => simp [ffmpeg_mux_trace]
  · rw [if_neg hsel]
    simpa using mkvmerge_trace_no_remove env temp out "mkv" exp q

lemma mkvmerge_ok_run (env : Env) (temp out ext : String) (n : Nat)
    (aa ob : String) (op : ProcOutput) (hn : n ≠ 0)
    (h1 : env.pathAbs (temp ++ "/audio.mkv") = Except.ok aa)
    (h2 : env.pathAbs out = Except.ok ob)
    (h3 : env.createWrite (temp ++ "/options.json")
        (mkvmerge_options_json n ext (fix_path ob)
          (if env.fileExists aa then some (fix_path aa) else none)) = Except.ok ())
    (h4 : env.runOutput "mkvmerge" (some (temp ++ "/encoded"))
        ["@../options.json"] = Except.ok op)
    (h5 : op.success = true) :
    mkvmerge env temp out ext n =
      (Outcome.ok (),
       [Effect.queryExists aa,
        Effect.fsWrite (temp ++ "/options.json")
          (mkvmerge_options_json n ext (fix_path ob)
            (if env.fileExists aa then some (fix_path aa) else none)),
        Effect.spawnOutput "mkvmerge" (some (temp ++ "/encoded"))
          ["@../options.json"]]) := by
  unfold mkvmerge
  rw [h1]
  dsimp only
  rw [h2]
  dsimp only
  rw [if_neg hn, h3]
  dsimp only
  rw [h4]
  dsimp only
  rw [h5]
  simp

lemma mkvmerge_fail_run (env : Env) (temp out ext : String) (n : Nat)
    (aa ob : String) (op : ProcOutput) (hn : n ≠ 0)
    (h1 : env.pathAbs (temp ++ "/audio.mkv") = Except.ok aa)
    (h2 : env.pathAbs out = Except.ok ob)
    (h3 : env.createWrite (temp ++ "/options.json")
        (mkvmerge_options_json n ext (fix_path ob)
          (if env.fileExists aa then some (fix_path aa) else none)) = Except.ok ())
    (h4 : env.runOutput "mkvmerge" (some (temp ++ "/encoded"))
        ["@../options.json"] = Except.ok op)
    (h5 : op.success = false) :
    mkvmerge env temp out ext n =
      (Outcome.err (OutputError.MkvMergeFailed op.stderr),
       [Effect.queryExists aa,
        Effect.fsWrite (temp ++ "/options.json")
          (mkvmerge_options_json n ext (fix_path ob)
            (if env.fileExists aa then some (fix_path aa) else none)),
        Effect.spawnOutput "mkvmerge" (some (temp ++ "/encoded"))
          ["@../options.json"]]) := by
  unfold mkvmerge
  rw [h1]
  dsimp only
  rw [h2]
  dsimp only
  rw [if_neg hn, h3]
  dsimp only
  rw [h4]
  dsimp only
  rw [h5]
  simp

lemma spawnedPrograms_append (l₁ l₂ : List Effect) :
    spawnedPrograms (l₁ ++ l₂) = spawnedPrograms l₁ ++ spawnedPrograms l₂ := by
  simp [spawnedPrograms]

lemma spawnedPrograms_queries (l : List String) :
    spawnedPrograms (l.map Effect.queryExists) = [] := by
  induction l with
  | nil => rfl
  | cons a t ih => simp [spawnedPrograms, List.filterMap_cons, ih]

lemma fix_path_windows_of_stripNone (q : String)
    (h : stripPrefixOpt q uncMarker = none) : fix_path_windows q = q := by
  unfold fix_path_windows
  rw [h]

/-- Claim C1: when the number of supplied segments differs from the expected
segment count, `concatenate_videos_and_copy_streams` returns the
`Concatenation` count-mismatch error naming both the expected and the actual
number, with an empty effect trace: it touches no file and spawns no
process. -/
theorem claim1_count_mismatch (env : Env) (segs : List String)
    (orig out temp : String) (exp : Nat) (sel : String)
    (h : segs.length ≠ exp) :
    concatenate_videos_and_copy_streams env segs orig out temp exp sel =
      (Outcome.err (VideoEncodeError.Concatenation
        ("Mismatch in segment count. Expected: " ++ toString exp
          ++ ", Found: " ++ toString segs.length)), []) := by
  unfold concatenate_videos_and_copy_streams
  rw [if_pos h]

/-- Witness for C1 at one segment against an expected count of two. -/
theorem claim1_witness :
    concatenate_videos_and_copy_streams envAllOk ["s0.mkv"] "in.mkv" "out.mkv"
        "tmp" 2 "ffmpeg" =
      (Outcome.err (VideoEncodeError.Concatenation
        ("Mismatch in segment count. Expected: " ++ toString 2
          ++ ", Found: " ++ toString (["s0.mkv"] : List String).length)), []) :=
  claim1_count_mismatch envAllOk ["s0.mkv"] "in.mkv" "out.mkv" "tmp" 2 "ffmpeg"
    (by decide)

/-- Claim C2: with a matching count and at least one missing segment,
`concatenate_videos_and_copy_streams` returns the `Concatenation`
missing-file error naming exactly the first missing path in segment order,
and its effect trace consists of existence probes only: no write, no
removal, and no process spawn. -/
theorem claim2_segment_missing (env : Env) (segs : List String)
    (orig out temp : String) (exp : Nat) (sel : String) (m : String)
    (hlen : segs.length = exp)
    (hfind : segs.find? (fun p => !env.fileExists p) = some m) :
    (concatenate_videos_and_copy_streams env segs orig out temp exp sel).1 =
      Outcome.err (VideoEncodeError.Concatenation
        ("Segment file not found: " ++ rustDebugStr m)) ∧
    ∀ e ∈ (concatenate_videos_and_copy_streams env segs orig out temp exp sel).2,
      ∃ q, e = Effect.queryExists q := by
  have hfm := checkSegments_first_missing env segs m hfind
  rcases hcs : checkSegments env segs with ⟨r1, r2⟩
  rw [hcs] at hfm
  obtain ⟨hfst, htr⟩ := hfm
  simp only at hfst htr
  subst hfst
  unfold concatenate_videos_and_copy_streams
  rw [if_neg (by simp [hlen]), hcs]
  exact ⟨rfl, htr⟩

/-- Witness for C2: among three segments only `s1.mkv` is missing, and it is
the one reported. -/
theorem claim2_witness :
    (concatenate_videos_and_copy_streams envOneMissing
        ["s0.mkv", "s1.mkv", "s2.mkv"] "in.mkv" "out.mkv" "tmp" 3 "ffmpeg").1 =
      Outcome.err (VideoEncodeError.Concatenation
        ("Segment file not found: " ++ rustDebugStr "s1.mkv")) ∧
    ∀ e ∈ (concatenate_videos_and_copy_streams envOneMissing
        ["s0.mkv", "s1.mkv", "s2.mkv"] "in.mkv" "out.mkv" "tmp" 3 "ffmpeg").2,
      ∃ q, e = Effect.queryExists q :=
  claim2_segment_missing envOneMissing ["s0.mkv", "s1.mkv", "s2.mkv"]
    "in.mkv" "out.mkv" "tmp" 3 "ffmpeg" "s1.mkv" rfl (by decide)

/-- Claim C3: backend dispatch is total on the selector string.  In a run
where validation passes and every operation succeeds, exactly one external
program is spawned: `ffmpeg` when the selector is `"ffmpeg"`, and `mkvmerge`
for every other selector value. -/
theorem claim3_backend_dispatch_total (env : Env) (segs : List String)
    (orig out temp : String) (exp : Nat) (sel : String)
    (aa ob : String) (code : Int) (op : ProcOutput)
    (hlen : segs.length = exp) (hexp : exp ≠ 0)
    (hex : ∀ p ∈ segs, env.fileExists p = true)
    (hW : env.fsWriteRes "file_list.txt" (fileListContent segs) = Except.ok ())
    (hS : env.runStatus "ffmpeg" (ffmpegArgs "file_list.txt" orig out)
        = Except.ok code)
    (h1 : env.pathAbs (temp ++ "/audio.mkv") = Except.ok aa)
    (h2 : env.pathAbs out = Except.ok ob)
    (h3 : env.createWrite (temp ++ "/options.json")
        (mkvmerge_options_json exp "mkv" (fix_path ob)
          (if env.fileExists aa then some (fix_path aa) else none)) = Except.ok ())
    (h4 : env.runOutput "mkvmerge" (some (temp ++ "/encoded"))
        ["@../options.json"] = Except.ok op)
    (h5 : op.success = true) :
    spawnedPrograms
        (concatenate_videos_and_copy_streams env segs orig out temp exp sel).2 =
      [if sel = "ffmpeg" then "ffmpeg" else "mkvmerge"] := by
  unfold concatenate_videos_and_copy_streams
  rw [if_neg (by simp [hlen]), checkSegments_all_exist env segs hex]
  unfold backendRun
  by_cases hsel : sel = "ffmpeg"
  · rw [if_pos hsel, hW]
    unfold ffmpeg_mux
    rw [hS]
    dsimp only
    cases env.removeFile "file_list.txt" <;>
      simp [hsel, spawnedPrograms_append, spawnedPrograms_queries, spawnedPrograms]
  · rw [if_neg hsel,
      mkvmerge_ok_run env temp out "mkv" exp aa ob op hexp h1 h2 h3 h4 h5]
    dsimp only
    cases env.removeFile "file_list.txt" <;>
      simp [hsel, spawnedPrograms_append, spawnedPrograms_queries, spawnedPrograms]

/-- Witness for C3 at a selector value that is neither backend name. -/
theorem claim3_witness :
    spawnedPrograms
        (concatenate_videos_and_copy_streams envAllOk ["s0.mkv"] "in.mkv"
          "out.mkv" "tmp" 1 "mkvmarge").2 =
      [if ("mkvmarge" : String) = "ffmpeg" then "ffmpeg" else "mkvmerge"] :=
  claim3_backend_dispatch_total envAllOk ["s0.mkv"] "in.mkv" "out.mkv" "tmp" 1
    "mkvmarge" ("tmp" ++ "/audio.mkv") "out.mkv" 0 ⟨true, "", ""⟩
    rfl (by decide) (by decide) rfl rfl rfl rfl rfl rfl rfl

/-- Counterexample to C4 as stated: on a successful run of the remux
(non-`"ffmpeg"`) backend, the removal of `file_list.txt` is also attempted,
so the removal is not confined to the muxer path. -/
theorem claim4_counterexample :
    ("mkvmerge" : String) ≠ "ffmpeg" ∧
    Effect.fsRemove "file_list.txt" ∈
      (concatenate_videos_and_copy_streams envAllOk ["s0.mkv"] "in.mkv"
        "out.mkv" "tmp" 1 "mkvmerge").2 ∧
    (concatenate_videos_and_copy_streams envAllOk ["s0.mkv"] "in.mkv"
        "out.mkv" "tmp" 1 "mkvmerge").1 = Outcome.ok () := by
  decide

/-- Claim C4 (amended): on success of the selected backend — either backend,
not only the muxer path — `concatenate_videos_and_copy_streams` attempts to
remove the `file_list.txt` artifact, and it reports success exactly when
that removal succeeds; on a backend failure, and on the early return of a
failed file-list write, no removal is attempted. -/
theorem claim4_cleanup_on_success (env : Env) (segs : List String)
    (orig out temp : String) (exp : Nat) (sel : String)
    (hlen : segs.length = exp)
    (hex : ∀ p ∈ segs, env.fileExists p = true) :
    ((backendRun env segs orig out temp exp sel).1
        = BranchRes.status (Outcome.ok ()) →
      Effect.fsRemove "file_list.txt" ∈
        (concatenate_videos_and_copy_streams env segs orig out temp exp sel).2 ∧
      ((concatenate_videos_and_copy_streams env segs orig out temp exp sel).1
          = Outcome.ok ()
        ↔ env.removeFile "file_list.txt" = Except.ok ())) ∧
    (∀ e, (backendRun env segs orig out temp exp sel).1
        = BranchRes.status (Outcome.err e) →
      Effect.fsRemove "file_list.txt" ∉
        (concatenate_videos_and_copy_streams env segs orig out temp exp sel).2) ∧
    (∀ e, (backendRun env segs orig out temp exp sel).1 = BranchRes.early e →
      Effect.fsRemove "file_list.txt" ∉
        (concatenate_videos_and_copy_streams env segs orig out temp exp sel).2) := by
  have hnr := backendRun_no_remove env segs orig out temp exp sel "file_list.txt"
  unfold concatenate_videos_and_copy_streams
  rw [if_neg (by simp [hlen]), checkSegments_all_exist env segs hex]
  rcases hbr : backendRun env segs orig out temp exp sel with ⟨br, tr⟩
  rw [hbr] at hnr
  simp only at hnr
  refine ⟨?_, ?_, ?_⟩
  · intro hok
    simp only at hok
    subst hok
    cases hrf : env.removeFile "file_list.txt" with
    | error e => simp [hrf]
    | ok u => simp [hrf]
  · intro e he
    simp only at he
    subst he
    simp [hnr]
  · intro e he
    simp only at he
    subst he
    simp [hnr]

/-- Witness for C4 (amended) on the muxer path with a successful removal. -/
theorem claim4_witness :
    Effect.fsRemove "file_list.txt" ∈
      (concatenate_videos_and_copy_streams envAllOk ["s0.mkv"] "in.mkv"
        "out.mkv" "tmp" 1 "ffmpeg").2 ∧
    ((concatenate_videos_and_copy_streams envAllOk ["s0.mkv"] "in.mkv"
        "out.mkv" "tmp" 1 "ffmpeg").1 = Outcome.ok ()
      ↔ envAllOk.removeFile "file_list.txt" = Except.ok ()) :=
  (claim4_cleanup_on_success envAllOk ["s0.mkv"] "in.mkv" "out.mkv" "tmp" 1
    "ffmpeg" rfl (by decide)).1 (by decide)

/-- Claim C5: for every non-empty chunk count `n` and extension `ext`, the
options text is the head (output element and optional audio element)
followed by the group-open token, exactly the `n` chunk entries
`encoded_chunk_0.ext` through `encoded_chunk_(n-1).ext` in index order, and
the group-close token — whether or not an audio path is supplied. -/
theorem claim5_chunk_entries (n : Nat) (ext output : String)
    (audio : Option String) (h : 0 < n) :
    mkvmerge_options_json n ext output audio
      = optionsHead output audio
        ++ (", \"[\"" ++ String.join ((List.range n).map (chunkEntry ext))
          ++ ",\"]\"]") := by
  rw [mkvmerge_options_json_structure]
  rfl

/-- Witness for C5 at two chunks with an audio path supplied. -/
theorem claim5_witness :
    mkvmerge_options_json 2 "mkv" "/out/final.mkv" (some "/tmp/audio.mkv")
      = optionsHead "/out/final.mkv" (some "/tmp/audio.mkv")
        ++ (", \"[\"" ++ String.join ((List.range 2).map (chunkEntry "mkv"))
          ++ ",\"]\"]") :=
  claim5_chunk_entries 2 "mkv" "/out/final.mkv" (some "/tmp/audio.mkv")
    (by decide)

/-- Claim C6: the options text with an audio path is identical to the one
without, except that the audio element is inserted immediately after the
output element. -/
theorem claim6_audio_insertion (n : Nat) (ext output a : String) :
    mkvmerge_options_json n ext output none
        = optionsOutputElem output ++ optionsTail n ext ∧
    mkvmerge_options_json n ext output (some a)
        = optionsOutputElem output ++ (", " ++ rustDebugStr a)
          ++ optionsTail n ext := by
  constructor
  · rw [mkvmerge_options_json_structure]
    rfl
  · rw [mkvmerge_options_json_structure]
    apply String.ext
    simp [optionsHead]

/-- Claim C7: when the mkvmerge process exits with a non-zero status, the
backend returns `MkvMergeFailed` carrying the captured stderr text, while
`concatenate_videos_and_copy_streams` returns the umbrella `Concatenation`
failure whose message is a fixed string that does not include that text. -/
theorem claim7_stderr_only_logged (env : Env) (segs : List String)
    (orig out temp : String) (exp : Nat) (sel : String)
    (aa ob : String) (op : ProcOutput)
    (hsel : sel ≠ "ffmpeg") (hlen : segs.length = exp) (hexp : exp ≠ 0)
    (hex : ∀ p ∈ segs, env.fileExists p = true)
    (h1 : env.pathAbs (temp ++ "/audio.mkv") = Except.ok aa)
    (h2 : env.pathAbs out = Except.ok ob)
    (h3 : env.createWrite (temp ++ "/options.json")
        (mkvmerge_options_json exp "mkv" (fix_path ob)
          (if env.fileExists aa then some (fix_path aa) else none)) = Except.ok ())
    (h4 : env.runOutput "mkvmerge" (some (temp ++ "/encoded"))
        ["@../options.json"] = Except.ok op)
    (h5 : op.success = false) :
    (mkvmerge env temp out "mkv" exp).1 =
        Outcome.err (OutputError.MkvMergeFailed op.stderr) ∧
    (concatenate_videos_and_copy_streams env segs orig out temp exp sel).1 =
        Outcome.err (VideoEncodeError.Concatenation
          "Failed to concatenate videos and copy streams") := by
  have hm := mkvmerge_fail_run env temp out "mkv" exp aa ob op hexp h1 h2 h3 h4 h5
  constructor
  · rw [hm]
  · unfold concatenate_videos_and_copy_streams
    rw [if_neg (by simp [hlen]), checkSegments_all_exist env segs hex]
    unfold backendRun
    rw [if_neg hsel, hm]

/-- Witness for C7: the mkvmerge process fails with stderr `bad input`; the
backend error carries it, the caller-facing error does not. -/
theorem claim7_witness :
    (mkvmerge envMkvFail "tmp" "out.mkv" "mkv" 1).1 =
        Outcome.err (OutputError.MkvMergeFailed "bad input") ∧
    (concatenate_videos_and_copy_streams envMkvFail ["s0.mkv"] "in.mkv"
        "out.mkv" "tmp" 1 "mkvmerge").1 =
        Outcome.err (VideoEncodeError.Concatenation
          "Failed to concatenate videos and copy streams") :=
  claim7_stderr_only_logged envMkvFail ["s0.mkv"] "in.mkv" "out.mkv" "tmp" 1
    "mkvmerge" ("tmp" ++ "/audio.mkv") "out.mkv" ⟨false, "", "bad input"⟩
    (by decide) rfl (by decide) (by decide) rfl rfl rfl rfl rfl

/-- Claim C8: `ffmpeg_mux` never inspects the exit status of the spawned
process: whenever the launch succeeds it returns success, whatever the exit
code; only a launch-level error is surfaced, as `IoErr`. -/
theorem claim8_exit_status_ignored (env : Env) (c i o : String) :
    (∀ code : Int, env.runStatus "ffmpeg" (ffmpegArgs c i o) = Except.ok code →
      ffmpeg_mux env c i o =
        (Outcome.ok (), [Effect.spawnStatus "ffmpeg" (ffmpegArgs c i o)])) ∧
    (∀ e : String, env.runStatus "ffmpeg" (ffmpegArgs c i o) = Except.error e →
      ffmpeg_mux env c i o =
        (Outcome.err (OutputError.IoErr e),
          [Effect.spawnStatus "ffmpeg" (ffmpegArgs c i o)])) := by
  constructor <;> intro x hx <;> unfold ffmpeg_mux <;> rw [hx]

/-- Witness for C8 at a successfully launched process. -/
theorem claim8_witness :
    ffmpeg_mux envAllOk "file_list.txt" "in.mkv" "out.mkv" =
      (Outcome.ok (),
        [Effect.spawnStatus "ffmpeg"
          (ffmpegArgs "file_list.txt" "in.mkv" "out.mkv")]) :=
  (claim8_exit_status_ignored envAllOk "file_list.txt" "in.mkv" "out.mkv").1
    0 rfl

/-- Counterexample to C9 as stated: the Windows normalizer is not idempotent
on the path whose text is the extended-length marker followed by an
extended-length-prefixed path: one pass strips the outer marker, a second
pass strips again. -/
theorem claim9_counterexample :
    fix_path_windows (fix_path_windows "\\\\?\\\\\\?\\a")
      ≠ fix_path_windows "\\\\?\\\\\\?\\a" := by
  decide

/-- Claim C9 (amended): the non-Windows normalizer is the identity and hence
idempotent; the Windows normalizer is idempotent at exactly the paths whose
normalized form does not itself begin with the extended-length marker. -/
theorem claim9_normalizer_idempotent :
    (∀ p, fix_path (fix_path p) = fix_path p) ∧
    (∀ p, stripPrefixOpt (fix_path_windows p) uncMarker = none →
      fix_path_windows (fix_path_windows p) = fix_path_windows p) := by
  constructor
  · intro p
    rfl
  · intro p h
    rw [fix_path_windows_of_stripNone _ h]

/-- Witness for C9 (amended) at an ordinary absolute Windows path. -/
theorem claim9_witness :
    fix_path_windows (fix_path_windows "C:\\video\\out.mkv")
      = fix_path_windows "C:\\video\\out.mkv" :=
  claim9_normalizer_idempotent.2 "C:\\video\\out.mkv" (by decide)

/-- Claim C10: invoking the remux backend with a chunk count of zero fails
the assertion — the outcome is a panic, not a typed error — before any
options text is written. -/
theorem claim10_zero_chunks_panics (env : Env) (temp out ext : String)
    (aa ob : String)
    (h1 : env.pathAbs (temp ++ "/audio.mkv") = Except.ok aa)
    (h2 : env.pathAbs out = Except.ok ob) :
    (mkvmerge env temp out ext 0).1 = Outcome.panic ∧
    ∀ p c, Effect.fsWrite p c ∉ (mkvmerge env temp out ext 0).2 := by
  unfold mkvmerge
  rw [h1]
  dsimp only
  rw [h2]
  simp

/-- Witness for C10 in an otherwise fully healthy environment. -/
theorem claim10_witness :
    (mkvmerge envAllOk "tmp" "out.mkv" "mkv" 0).1 = Outcome.panic ∧
    ∀ p c, Effect.fsWrite p c ∉ (mkvmerge envAllOk "tmp" "out.mkv" "mkv" 0).2 :=
  claim10_zero_chunks_panics envAllOk "tmp" "out.mkv" "mkv"
    ("tmp" ++ "/audio.mkv") "out.mkv" rfl rfl

end Concat
